import Mathlib

/-!
Verification development for the evidence-gated civic-issue email-routing
module (the multi-pass address-resolution and retry pipeline).

The JavaScript source is shallowly embedded: each source function becomes an
executable Lean definition; network effects (the generative-model gateway and
the DNS-over-HTTPS resolver) become explicit oracle parameters, and each
embedded entry point additionally returns a trace of the external calls it
issued so that call-ordering properties can be stated.  JavaScript numbers
that are only ever passed through verbatim (the `confidence` literals 0.1 and
0.5) are modelled as rationals; no floating-point arithmetic occurs in the
modelled code paths.
-/

namespace SmartRouting

/-! ## JavaScript string primitives used by the module -/

/-- One `[^\s@]` character of the validation pattern: not whitespace, not `@`. -/
def isEmailChar (c : Char) : Bool := !c.isWhitespace && c != '@'

/-- Split a character list at the first `'@'`, returning the parts before and
after it; `none` when the list has no `'@'`. -/
def splitAtAmp : List Char → Option (List Char × List Char)
  | [] => none
  | c :: rest =>
    if c = '@' then some ([], rest)
    else
      match splitAtAmp rest with
      | some (a, b) => some (c :: a, b)
      | none => none

/-- Does the list contain a `'.'` that is not its last element?  (Used on the
tail of the domain part, so a hit means the domain has a `'.'` with at least
one character on each side.) -/
def hasDotInside : List Char → Bool
  | [] => false
  | [_] => false
  | c :: c2 :: rest => c = '.' || hasDotInside (c2 :: rest)

/-- `leadMatch sub l` is true when `sub` is an initial segment of `l`. -/
def leadMatch : List Char → List Char → Bool
  | [], _ => true
  | _ :: _, [] => false
  | a :: as, b :: bs => a == b && leadMatch as bs

/-- `occursIn sub l` is true when `sub` occurs contiguously inside `l`. -/
def occursIn (sub : List Char) : List Char → Bool
  | [] => sub.isEmpty
  | c :: rest => leadMatch sub (c :: rest) || occursIn sub rest

/-- JavaScript `s.includes(sub)`: contiguous-substring test. -/
def jsIncludes (s sub : String) : Bool := occursIn sub.data s.data

/-- JavaScript `toLowerCase`, restricted to ASCII (every string this module
lowercases is ASCII). -/
def jsLowerChar (c : Char) : Char :=
  if 'A' ≤ c ∧ c ≤ 'Z' then Char.ofNat (c.toNat + 32) else c

/-- Lowercase a string character-wise. -/
def jsToLower (s : String) : String := ⟨s.data.map jsLowerChar⟩

/-! ## `isValidEmailFormat` (source lines 114-119)

The source tests the regular expression `^[^\s@]+@[^\s@]+\.[^\s@]+$`: a
non-empty run of non-space/non-`@` characters, an `@`, and a domain that is a
non-empty run of non-space/non-`@` characters containing a `'.'` with at
least one character on each side.  Non-string and empty inputs are rejected;
the embedding models the string case (the only one the pipeline produces). -/

def isValidEmailFormat (email : String) : Bool :=
  match splitAtAmp email.data with
  | none => false
  | some (lp, dp) =>
    !lp.isEmpty && lp.all isEmailChar &&
    !dp.isEmpty && dp.all isEmailChar &&
    (match dp with
     | [] => false
     | _ :: rest => hasDotInside rest)

/-! ## Relevance filter `isDepartmentRelevant` (source lines 326-351) -/

/-- The `for` field of a rejection rule: `"any"` in the source, or a list of
topics the keyword group is wrong for. -/
inductive RuleScope
  | anyTopic
  | forTopics (ts : List String)

/-- One entry of the source's `wrongDepartments` table. -/
structure WrongDeptRule where
  keywords : List String
  scope : RuleScope

/-- The `wrongDepartments` table, verbatim from source lines 333-340. -/
def wrongDepartments : List WrongDeptRule :=
  [ ⟨["eeo", "equal employment", "human resources", "hr@"], .anyTopic⟩,
    ⟨["media", "press", "communications", "pr@"], .anyTopic⟩,
    ⟨["tourism", "visitor", "convention"], .anyTopic⟩,
    ⟨["permit", "licensing", "license"], .anyTopic⟩,
    ⟨["graffiti"],
      .forTopics ["pothole", "streetlight", "sidewalk", "trash", "noise",
                  "flooding", "sewer", "water"]⟩,
    ⟨["environment", "sustainability"],
      .forTopics ["pothole", "streetlight", "sidewalk", "graffiti"]⟩ ]

/-- Validate that the department/email makes sense for the issue type.
Missing `agencyName`/`email` are modelled as the empty string (both are falsy
in the source's `!agencyName && !email` test; `x || ""` then yields `""`). -/
def isDepartmentRelevant (topic agencyName email : String) : Bool :=
  if agencyName.isEmpty && email.isEmpty then false
  else
    let combined := jsToLower (agencyName ++ " " ++ email)
    let topicLower := jsToLower topic
    let rejected := wrongDepartments.any fun rule =>
      (rule.keywords.any fun kw => jsIncludes combined kw) &&
      (match rule.scope with
       | .anyTopic => true
       | .forTopics ts => ts.any fun t => jsIncludes topicLower t)
    !rejected

/-! ## Domain verifier `checkDomainMX` (source lines 124-136)

The function issues a single DNS-over-HTTPS request for the domain's MX
records (with a 5000 ms abort timeout) and returns whether the response has
status `NOERROR` and a non-empty answer list; any network failure, timeout or
body-parse failure is caught and yields `null` ("cannot verify").  The DNS
resolver is an oracle from queries to outcomes, and the embedding also
returns the list of queries issued. -/

inductive DnsRecordType
  | MX
  | A
deriving DecidableEq

/-- One DNS-over-HTTPS request: the queried name and the record type. -/
structure DnsQuery where
  name : String
  qtype : DnsRecordType
deriving DecidableEq

/-- The fields of the resolver's JSON body that the source inspects.
`answerLen` is the length of `data.Answer`, with a missing `Answer` field
modelled as length 0 (both are rejected identically by the source's
`data.Answer && data.Answer.length > 0` test). -/
structure DnsResponse where
  Status : Int
  answerLen : Nat
deriving DecidableEq

/-- The `AbortSignal.timeout(5000)` constant on the MX fetch. -/
def MX_TIMEOUT_MS : Nat := 5000

/-- DNS MX record check - sanity filter only.  Returns the source's result
(`some b` for a completed check, `none` for the caught failure path) paired
with the DNS queries issued. -/
def checkDomainMX (dns : DnsQuery → Except Unit DnsResponse) (domain : String) :
    Option Bool × List DnsQuery :=
  match dns ⟨domain, .MX⟩ with
  | .error _ => (none, [⟨domain, .MX⟩])
  | .ok d => (some ((d.Status == 0) && decide (0 < d.answerLen)), [⟨domain, .MX⟩])

/-! ## Model gateway transport: `sleep` and `callGemini` (source lines 9-109)

`callGemini` is embedded at the HTTP level.  The server is an oracle from the
global fetch counter to the outcome of that fetch attempt; the parsed-JSON
content of a successful body is supplied abstractly by the oracle (the
markdown-fence stripping and `JSON.parse` of the raw text are collapsed into
the oracle saying whether the cleaned text parses, and to what value), since
no claim inspects the text-cleaning step itself.  The embedding returns the
call's result, the trace of fetches and backoff sleeps (recording each
sleep's requested base delay), and the next fetch counter.

The source's self-recursion carries `retryCount`, and every recursive call is
guarded by `retryCount < MAX_RETRIES` (the JSON-repair path by the stricter
`retryCount < 3`) and increments `retryCount`; the embedding therefore
recurses structurally on `gas`, maintained as `MAX_RETRIES + 1 - retryCount`,
whose zero case is unreachable from the `callGemini` entry point. -/

/-- Retry configuration (source line 9). -/
def MAX_RETRIES : Nat := 5

/-- Retry configuration (source line 10). -/
def BASE_DELAY_MS : Nat := 1000

/-- The actual duration of `sleep(ms)` (source lines 15-18): the requested
`ms` plus `Math.random() * 0.3 * ms` jitter, with the random draw
`frac ∈ [0, 1)` made explicit. -/
def sleepActual (frac : ℚ) (ms : Nat) : ℚ := (ms : ℚ) + frac * (3 / 10) * (ms : ℚ)

/-- One entry of a `callGemini` trace: a fetch attempt, or a backoff sleep
with its requested base delay in milliseconds. -/
inductive GwEvent
  | fetchEv
  | sleepEv (baseMs : Nat)
deriving DecidableEq

/-- Whether the cleaned response text parses as JSON, and to which value. -/
inductive TextContent (α : Type)
  | parses (v : α)
  | noParse (msg : String)
deriving DecidableEq

/-- The fields of `data.candidates?.[0]` that the source inspects.  A missing
or empty `text` is modelled as `text = none` (both fail the source's `!raw`
truthiness test identically). -/
structure CandidateInfo (α : Type) where
  finishReason : Option String
  text : Option (TextContent α)
deriving DecidableEq

/-- The response-body fields the source inspects: the first candidate (if
any) and `data.promptFeedback?.blockReason`. -/
structure RespBody (α : Type) where
  candidate : Option (CandidateInfo α)
  blockReason : Option String
deriving DecidableEq

/-- Outcome of one `fetch`: a network-level rejection carrying the thrown
error's message, or an HTTP response with its status, its error text (read by
`response.text()` on non-ok statuses) and its JSON body. -/
inductive FetchOutcome (α : Type)
  | netFail (msg : String)
  | resp (status : Nat) (errText : String) (body : RespBody α)

/-- Recursion core of `callGemini`.  `gas` is `MAX_RETRIES + 1 - retryCount`
(see the section comment); `idx` is the global fetch counter; `rc` is the
source's `retryCount`.  Returns (result, events of this call and all retries,
next fetch counter). -/
def callGeminiAux {α : Type} (server : Nat → FetchOutcome α) :
    Nat → Nat → Nat → Except String α × List GwEvent × Nat
  | 0, idx, _ => (.error "retry budget exhausted", [], idx)
  | gas + 1, idx, rc =>
    match server idx with
    | .netFail msg =>
      -- the catch block: retry (with backoff) only transport-level errors,
      -- recognised by "fetch" occurring in the message
      if rc < MAX_RETRIES && jsIncludes msg "fetch" then
        let rest := callGeminiAux server gas (idx + 1) (rc + 1)
        (rest.1, .fetchEv :: .sleepEv (BASE_DELAY_MS * 2 ^ rc) :: rest.2.1, rest.2.2)
      else (.error msg, [.fetchEv], idx + 1)
    | .resp status errText body =>
      if status == 429 || status == 503 || status == 504 then
        -- retryable statuses: exponential backoff, then terminal error
        if rc < MAX_RETRIES then
          let rest := callGeminiAux server gas (idx + 1) (rc + 1)
          (rest.1, .fetchEv :: .sleepEv (BASE_DELAY_MS * 2 ^ rc) :: rest.2.1, rest.2.2)
        else
          (.error ("API error " ++ toString status ++ " after " ++
                   toString MAX_RETRIES ++ " retries"), [.fetchEv], idx + 1)
      else if !(200 ≤ status && status < 300) then
        -- `!response.ok`: thrown, then examined by the catch block
        let msg := "Gemini API error: " ++ toString status ++ " — " ++ errText
        if rc < MAX_RETRIES && jsIncludes msg "fetch" then
          let rest := callGeminiAux server gas (idx + 1) (rc + 1)
          (rest.1, .fetchEv :: .sleepEv (BASE_DELAY_MS * 2 ^ rc) :: rest.2.1, rest.2.2)
        else (.error msg, [.fetchEv], idx + 1)
      else
        let cand := body.candidate
        let raw := cand.bind (fun c => c.text)
        if (match cand with
            | some c => c.finishReason == some "MAX_TOKENS"
            | none => false) && rc < MAX_RETRIES then
          -- truncated response: retried immediately, with no backoff sleep
          let rest := callGeminiAux server gas (idx + 1) (rc + 1)
          (rest.1, .fetchEv :: rest.2.1, rest.2.2)
        else
          match raw with
          | none =>
            let br := match cand.bind (fun c => c.finishReason) with
                      | some fr => some fr
                      | none => body.blockReason
            let msg := "Empty response from Gemini" ++
                       (match br with | some b => ": " ++ b | none => "")
            if rc < MAX_RETRIES && jsIncludes msg "fetch" then
              let rest := callGeminiAux server gas (idx + 1) (rc + 1)
              (rest.1, .fetchEv :: .sleepEv (BASE_DELAY_MS * 2 ^ rc) :: rest.2.1, rest.2.2)
            else (.error msg, [.fetchEv], idx + 1)
          | some (.parses v) => (.ok v, [.fetchEv], idx + 1)
          | some (.noParse pm) =>
            if rc < 3 then
              -- JSON-repair re-prompt: retried immediately, no backoff sleep
              let rest := callGeminiAux server gas (idx + 1) (rc + 1)
              (rest.1, .fetchEv :: rest.2.1, rest.2.2)
            else
              let msg := "Failed to parse JSON response: " ++ pm
              if rc < MAX_RETRIES && jsIncludes msg "fetch" then
                let rest := callGeminiAux server gas (idx + 1) (rc + 1)
                (rest.1, .fetchEv :: .sleepEv (BASE_DELAY_MS * 2 ^ rc) :: rest.2.1, rest.2.2)
              else (.error msg, [.fetchEv], idx + 1)

/-- `callGemini(prompt, useSearch)` with the default `retryCount = 0`,
starting the fetch counter at 0. -/
def callGemini {α : Type} (server : Nat → FetchOutcome α) :
    Except String α × List GwEvent × Nat :=
  callGeminiAux server (MAX_RETRIES + 1) 0 0

/-! ## Pipeline data model (source lines 138-321, 353-496)

`generateEmailDraft` is embedded at the model-gateway level: each of its
`callGemini` call sites is an oracle field of a `Gateway` record, returning
either the parsed JSON of that call's schema or a thrown error (`Except`).
The embedding returns the pipeline's result (paired with the internal
`emailResult` candidate it selected) and the trace of gateway calls issued,
each tagged with the call site and the literal `useSearch` flag the source
passes there. -/

/-- The `evidence` object of a search-tier response (source schema). -/
structure Evidence where
  source_title : String
  source_url : String
  quoted_snippet : String
deriving DecidableEq

/-- A search-tier response, and also the shape of the internal `emailResult`
the pipeline carries.  A missing/null `confidence` is `none`; a missing
`email`/`agency_name` is the empty string (falsy, like the real missing
field, at every use site). -/
structure SearchResponse where
  found : Bool
  email : String
  agency_name : String
  evidence : Option Evidence
  confidence : Option ℚ
deriving DecidableEq

/-- Reverse-geocoding response `{city, state}`; a missing or empty field is
the empty string (both are falsy in the source's `geo.city && geo.state`). -/
structure GeoResponse where
  city : String
  state : String
deriving DecidableEq

/-- `extractLocation` response `{city, state, hasLocation}`. -/
structure LocResponse where
  city : String
  state : String
  hasLocation : Bool
deriving DecidableEq

/-- `extractTopic` response `{topic}`; a missing topic is the empty string
(falsy, like the real missing field, in `result.topic || "general issue"`). -/
structure TopicResponse where
  topic : String
deriving DecidableEq

/-- Last-resort guess response; only `email` and `agency_name` are read (the
source overwrites the confidence with the literal 0.1). -/
structure GuessResponse where
  email : String
  agency_name : String
deriving DecidableEq

/-- Draft-composition response `{subject, body}`. -/
structure EmailContent where
  subject : String
  body : String
deriving DecidableEq

/-- A JavaScript value sitting in a `latitude`/`longitude` property: a
number, a string, or absent.  Only `typeof v === "number"` is ever tested. -/
inductive JsNum
  | num (q : ℚ)
  | str (s : String)
  | missing
deriving DecidableEq

/-- `typeof v === "number"`. -/
def JsNum.isNumber : JsNum → Bool
  | .num _ => true
  | _ => false

/-- The caller-supplied `location` object. -/
structure LocationObj where
  latitude : JsNum
  longitude : JsNum
deriving DecidableEq

/-- The `{description, location, hasPhoto}` argument of `generateEmailDraft`.
`description` and `hasPhoto` flow only into prompt text, which the
gateway-level embedding does not build. -/
structure PipelineInput where
  description : String
  location : Option LocationObj
  hasPhoto : Bool

/-- The call sites of `callGemini` inside the resolution pipeline. -/
inductive CallTag
  | geocode
  | extractLocation
  | extractTopic
  | searchTopicSpecific
  | searchAgency
  | searchGeneral
  | guess
  | draftBody
deriving DecidableEq

/-- One gateway call in a pipeline trace: its call site and the literal
`useSearch` flag the source passes at that site. -/
structure GeminiCall where
  tag : CallTag
  useSearch : Bool
deriving DecidableEq

/-- The model-gateway and DNS oracles for one `generateEmailDraft` run:
the response (or thrown error) of each call site. -/
structure Gateway where
  geocode : Except String GeoResponse
  extractLoc : Except String LocResponse
  topicCall : Except String TopicResponse
  passA : Except String SearchResponse
  passB : Except String SearchResponse
  passC : Except String SearchResponse
  guessCall : Except String GuessResponse
  bodyCall : Except String EmailContent
  dns : DnsQuery → Except Unit DnsResponse

/-- The four `fallbackLevel` tags, in decreasing trust order. -/
inductive FallbackLevel
  | TOPIC_SPECIFIC
  | AGENCY_MAIN
  | JURISDICTION_GENERAL
  | UNVERIFIED_GUESS
deriving DecidableEq

/-- The result object returned by `generateEmailDraft` (source lines
484-495). -/
structure RoutingResult where
  «to» : String
  subject : String
  body : String
  jurisdiction : String
  agency_name : String
  topic : String
  confidence : ℚ
  fallback_level : FallbackLevel
  evidence : Option Evidence
  dns_verified : Option Bool
deriving DecidableEq

/-! ## Pipeline steps -/

/-- The fixed default jurisdiction. -/
def defaultJurisdiction : String := "Palo Alto, CA"

/-- `extractTopic`'s post-processing (source line 320):
`result.topic || "general issue"`. -/
def topicOrDefault (tr : TopicResponse) : String :=
  if tr.topic.isEmpty then "general issue" else tr.topic

/-- `emailResult.confidence || 0.5` (source line 491): a missing/null
confidence, or the falsy number 0, is replaced by 0.5. -/
def jsOrHalf : Option ℚ → ℚ
  | none => 1 / 2
  | some q => if q = 0 then 1 / 2 else q

/-- `r.evidence?.quoted_snippet?.includes(r.email)` (source line 403 and its
two copies): false when `evidence` is null. -/
def evidenceQuotes (r : SearchResponse) : Bool :=
  match r.evidence with
  | some ev => jsIncludes ev.quoted_snippet r.email
  | none => false

/-- The common acceptance gate of the three search tiers (source lines
400-405, repeated verbatim at 413-418 and 427-432): `found`, syntactic email
validity, the email quoted in its own evidence snippet, and the relevance
filter. -/
def acceptCandidate (topic : String) (r : SearchResponse) : Bool :=
  r.found && isValidEmailFormat r.email && evidenceQuotes r &&
  isDepartmentRelevant topic r.agency_name r.email

/-- `email?.split("@")[1]` (source line 462): the characters after the first
`'@'` up to the next `'@'`; `none` when the string has no `'@'` (index 1 of
the split is then `undefined`). -/
def emailDomainOf (email : String) : Option String :=
  match splitAtAmp email.data with
  | none => none
  | some (_, rest) => some ⟨rest.takeWhile (fun c => c != '@')⟩

/-- Step 4 of the pipeline (source lines 461-466): run `checkDomainMX` on the
chosen email's domain when one exists, else leave `dnsValid` null. -/
def pipelineDns (g : Gateway) (email : String) : Option Bool :=
  match emailDomainOf email with
  | none => none
  | some d => (checkDomainMX g.dns d).1

/-- Step 1 of the pipeline (source lines 357-389): jurisdiction resolution.
A well-formed GPS pair is reverse-geocoded, with any thrown error or
incomplete response caught and replaced by the default; a malformed location
object short-circuits to the default without any gateway call; an absent
location runs `extractLocation` (whose thrown errors are NOT caught). -/
def resolveJurisdiction (g : Gateway) (location : Option LocationObj) :
    Except String String × List GeminiCall :=
  match location with
  | some loc =>
    if loc.latitude.isNumber && loc.longitude.isNumber then
      match g.geocode with
      | .ok geo =>
        if !geo.city.isEmpty && !geo.state.isEmpty then
          (.ok (geo.city ++ ", " ++ geo.state), [⟨.geocode, false⟩])
        else (.ok defaultJurisdiction, [⟨.geocode, false⟩])
      | .error _ => (.ok defaultJurisdiction, [⟨.geocode, false⟩])
    else (.ok defaultJurisdiction, [])
  | none =>
    match g.extractLoc with
    | .error e => (.error e, [⟨.extractLocation, false⟩])
    | .ok ex =>
      if ex.hasLocation && ex.city != "Unknown" then
        (.ok (ex.city ++ ", " ++ ex.state), [⟨.extractLocation, false⟩])
      else (.ok defaultJurisdiction, [⟨.extractLocation, false⟩])

/-- Step 3 of the pipeline (source lines 394-459): the three cascading search
tiers followed by the unverified-guess last resort.  Returns the selected
internal `emailResult` together with the `fallbackLevel` tag, and the search
and guess calls issued.  A thrown error from any attempted tier propagates
(the source has no try/catch here). -/
def searchCascade (g : Gateway) (topic : String) :
    Except String (SearchResponse × FallbackLevel) × List GeminiCall :=
  match g.passA with
  | .error e => (.error e, [⟨.searchTopicSpecific, true⟩])
  | .ok rA =>
    if acceptCandidate topic rA then
      (.ok (rA, .TOPIC_SPECIFIC), [⟨.searchTopicSpecific, true⟩])
    else
      match g.passB with
      | .error e => (.error e, [⟨.searchTopicSpecific, true⟩, ⟨.searchAgency, true⟩])
      | .ok rB =>
        if acceptCandidate topic rB then
          (.ok (rB, .AGENCY_MAIN), [⟨.searchTopicSpecific, true⟩, ⟨.searchAgency, true⟩])
        else
          match g.passC with
          | .error e =>
            (.error e, [⟨.searchTopicSpecific, true⟩, ⟨.searchAgency, true⟩,
                        ⟨.searchGeneral, true⟩])
          | .ok rC =>
            if acceptCandidate topic rC then
              (.ok (rC, .JURISDICTION_GENERAL),
               [⟨.searchTopicSpecific, true⟩, ⟨.searchAgency, true⟩,
                ⟨.searchGeneral, true⟩])
            else
              match g.guessCall with
              | .error e =>
                (.error e, [⟨.searchTopicSpecific, true⟩, ⟨.searchAgency, true⟩,
                            ⟨.searchGeneral, true⟩, ⟨.guess, false⟩])
              | .ok gu =>
                (.ok ((⟨false, gu.email, gu.agency_name, none,
                        some (1 / 10)⟩ : SearchResponse), .UNVERIFIED_GUESS),
                 [⟨.searchTopicSpecific, true⟩, ⟨.searchAgency, true⟩,
                  ⟨.searchGeneral, true⟩, ⟨.guess, false⟩])

/-- Main function (source lines 356-496): jurisdiction → topic → search
cascade → DNS sanity check → draft composition.  Returns the result object
paired with the internal `emailResult`, and the gateway-call trace. -/
def generateEmailDraft (g : Gateway) (inp : PipelineInput) :
    Except String (RoutingResult × SearchResponse) × List GeminiCall :=
  let jr := resolveJurisdiction g inp.location
  match jr.1 with
  | .error e => (.error e, jr.2)
  | .ok jurisdiction =>
    match g.topicCall with
    | .error e => (.error e, jr.2 ++ [⟨.extractTopic, false⟩])
    | .ok tr =>
      let topic := topicOrDefault tr
      let sc := searchCascade g topic
      match sc.1 with
      | .error e => (.error e, jr.2 ++ ⟨.extractTopic, false⟩ :: sc.2)
      | .ok (chosen, fb) =>
        match g.bodyCall with
        | .error e =>
          (.error e, jr.2 ++ ⟨.extractTopic, false⟩ :: (sc.2 ++ [⟨.draftBody, false⟩]))
        | .ok content =>
          (.ok ((⟨chosen.email, content.subject, content.body, jurisdiction,
                  chosen.agency_name, topic, jsOrHalf chosen.confidence,
                  fb, chosen.evidence,
                  pipelineDns g chosen.email⟩ : RoutingResult), chosen),
           jr.2 ++ ⟨.extractTopic, false⟩ :: (sc.2 ++ [⟨.draftBody, false⟩]))

/-- Is this trace entry one of the search-tier or guess calls? -/
def isSearchCall (c : GeminiCall) : Bool :=
  match c.tag with
  | .searchTopicSpecific | .searchAgency | .searchGeneral | .guess => true
  | _ => false

/-- The search-tier/guess call sites of a trace, in issue order. -/
def searchCalls (l : List GeminiCall) : List CallTag :=
  (l.filter isSearchCall).map (fun c => c.tag)

/-! ## `reviseEmailDraft` (source lines 501-521)

The revision path is one gateway call; here the prompt text is built
faithfully from the source's template literal (so that the statement can
quantify over the suggestion's content), and the gateway is an oracle from
(prompt, useSearch flag) to the response. -/

/-- The argument of `reviseEmailDraft`. -/
structure ReviseInput where
  currentTo : String
  currentSubject : String
  currentBody : String
  suggestion : String

/-- The revision response `{to, subject, body}`. -/
structure ReviseResponse where
  «to» : String
  subject : String
  body : String
deriving DecidableEq

/-- One gateway call of the revision path: the full prompt and the
`useSearch` flag. -/
structure ReviseCall where
  prompt : String
  useSearch : Bool

/-- The source's revision prompt template (lines 502-518), with the input
fields interpolated where the template literal interpolates them. -/
def revisePrompt (i : ReviseInput) : String :=
  "Revise this email based on the user's request.\n\nCURRENT EMAIL:\nTo: " ++
  i.currentTo ++ "\nSubject: " ++ i.currentSubject ++ "\nBody: " ++
  i.currentBody ++ "\n\nUSER REQUEST: \"" ++ i.suggestion ++
  "\"\n\nApply the requested changes. If the user mentions a different location or department, use Google Search to find the correct email for that location/department.\n\nSTRICT RULES:\n- If changing the email address, only use emails you can find evidence for\n- Keep the same email if the request is just about content changes\n\nReturn ONLY this JSON:\n\x7b\"to\": \"email address\", \"subject\": \"subject line\", \"body\": \"email body\"\x7d"

/-- Revise email draft based on user suggestion: a single
`callGemini(prompt, true)` (source line 520). -/
def reviseEmailDraft (gw : String → Bool → Except String ReviseResponse)
    (i : ReviseInput) : Except String ReviseResponse × List ReviseCall :=
  (gw (revisePrompt i) true, [⟨revisePrompt i, true⟩])

/-! ## Concrete fixtures for witnesses and counterexamples -/

/-- Sample evidence whose snippet quotes the sample email verbatim. -/
def evSample : Evidence :=
  ⟨"Report a Problem", "https://www.cityofpaloalto.org/report",
   "Email potholes@cityofpaloalto.org to report street issues"⟩

/-- A tier response satisfying all four acceptance criteria for topic
"pothole". -/
def rAccept : SearchResponse :=
  ⟨true, "potholes@cityofpaloalto.org", "Public Works", some evSample, some (8 / 10)⟩

/-- The same accepted candidate, but asserting confidence 0. -/
def rAcceptZeroConf : SearchResponse :=
  ⟨true, "potholes@cityofpaloalto.org", "Public Works", some evSample, some 0⟩

/-- A tier response with `found: false`. -/
def rReject : SearchResponse := ⟨false, "", "", none, none⟩

def geoSample : GeoResponse := ⟨"Palo Alto", "CA"⟩

def locSample : LocResponse := ⟨"Palo Alto", "CA", true⟩

def topicSample : TopicResponse := ⟨"pothole"⟩

def guessSample : GuessResponse := ⟨"info@cityofpaloalto.org", "City Hall"⟩

def contentSample : EmailContent :=
  ⟨"Pothole on Main Street", "Dear Public Works, I would like to report a pothole."⟩

/-- A DNS oracle whose lookups all succeed with one answer. -/
def dnsAllOk : DnsQuery → Except Unit DnsResponse := fun _ => .ok ⟨0, 1⟩

/-- A DNS oracle for a domain with no MX records but an existing A record:
the MX response is `NOERROR` with an empty answer list, the A response has
three answers. -/
def dnsNoMx : DnsQuery → Except Unit DnsResponse := fun q =>
  match q.qtype with
  | .MX => .ok ⟨0, 0⟩
  | .A => .ok ⟨0, 3⟩

/-- A gateway where the topic-specific tier's candidate is accepted. -/
def gwAcceptA : Gateway :=
  ⟨.ok geoSample, .ok locSample, .ok topicSample, .ok rAccept, .ok rReject,
   .ok rReject, .ok guessSample, .ok contentSample, dnsAllOk⟩

/-- A gateway where every search tier reports `found: false`. -/
def gwAllReject : Gateway :=
  ⟨.ok geoSample, .ok locSample, .ok topicSample, .ok rReject, .ok rReject,
   .ok rReject, .ok guessSample, .ok contentSample, dnsAllOk⟩

/-- A gateway whose accepted topic-specific candidate asserts confidence 0. -/
def gwZeroConf : Gateway :=
  ⟨.ok geoSample, .ok locSample, .ok topicSample, .ok rAcceptZeroConf, .ok rReject,
   .ok rReject, .ok guessSample, .ok contentSample, dnsAllOk⟩

/-- A gateway whose topic-extraction call returns an empty topic. -/
def gwEmptyTopic : Gateway :=
  ⟨.ok geoSample, .ok locSample, .ok ⟨""⟩, .ok rReject, .ok rReject,
   .ok rReject, .ok guessSample, .ok contentSample, dnsAllOk⟩

/-- A gateway whose topic-extraction call throws (every other call is
healthy). -/
def gwTopicFails : Gateway :=
  ⟨.ok geoSample, .ok locSample, .error "Empty response from Gemini", .ok rAccept,
   .ok rReject, .ok rReject, .ok guessSample, .ok contentSample, dnsAllOk⟩

/-- An input with no location. -/
def inpNoLoc : PipelineInput := ⟨"There is a pothole on Main St", none, false⟩

/-- An input with a malformed location object, `{latitude: "abc"}`. -/
def inpBadLoc : PipelineInput :=
  ⟨"There is a pothole on Main St", some ⟨.str "abc", .missing⟩, false⟩

/-- An HTTP server that answers every fetch with status 429. -/
def server429 : Nat → FetchOutcome Nat :=
  fun _ => .resp 429 "Too Many Requests" ⟨none, none⟩

/-- An HTTP server whose first response is truncated (`finishReason =
"MAX_TOKENS"`, body not yet valid JSON) and whose second response is
complete. -/
def serverTruncated : Nat → FetchOutcome Nat := fun idx =>
  if idx = 0 then
    .resp 200 ""
      ⟨some ⟨some "MAX_TOKENS", some (.noParse "Unexpected end of JSON input")⟩, none⟩
  else .resp 200 "" ⟨some ⟨none, some (.parses 7)⟩, none⟩

/-! ## Helper lemmas -/

theorem splitAtAmp_eq : ∀ {cs a b : List Char}, splitAtAmp cs = some (a, b) →
    cs = a ++ '@' :: b ∧ '@' ∉ a := by
  intro cs
  induction cs with
  | nil => intro a b h; simp [splitAtAmp] at h
  | cons c rest ih =>
    intro a b h
    by_cases hc : c = '@'
    · subst hc
      simp [splitAtAmp] at h
      obtain ⟨ha, hb⟩ := h
      subst ha; subst hb
      simp
    · rw [splitAtAmp, if_neg hc] at h
      rcases hrec : splitAtAmp rest with _ | ⟨a', b'⟩
      · rw [hrec] at h; simp at h
      · rw [hrec] at h
        simp only [Option.some.injEq, Prod.mk.injEq] at h
        obtain ⟨ha, hb⟩ := h
        obtain ⟨hcs, hnot⟩ := ih hrec
        subst ha; subst hb; subst hcs
        refine ⟨rfl, ?_⟩
        intro hmem
        rcases List.mem_cons.mp hmem with h | h
        · exact hc h.symm
        · exact hnot h

theorem hasDotInside_mem : ∀ {l : List Char}, hasDotInside l = true → '.' ∈ l
  | [], h => by simp [hasDotInside] at h
  | [c], h => by simp [hasDotInside] at h
  | c :: c2 :: rest, h => by
    simp only [hasDotInside, Bool.or_eq_true] at h
    rcases h with h1 | h2
    · have : c = '.' := by simpa using h1
      simp [this]
    · exact List.mem_cons_of_mem _ (hasDotInside_mem h2)

/-- A string accepted by the source's validation pattern has exactly one `@`,
and its domain part contains a `'.'`. -/
theorem valid_email_shape {e : String} (h : isValidEmailFormat e = true) :
    e.data.count '@' = 1 ∧
    ∃ lp dp, splitAtAmp e.data = some (lp, dp) ∧ '.' ∈ dp := by
  unfold isValidEmailFormat at h
  rcases hs : splitAtAmp e.data with _ | ⟨lp, dp⟩
  · rw [hs] at h; simp at h
  · rw [hs] at h
    simp only [Bool.and_eq_true] at h
    obtain ⟨⟨⟨⟨hlp, hlpc⟩, hdp⟩, hdpc⟩, hdot⟩ := h
    obtain ⟨hcs, hna⟩ := splitAtAmp_eq hs
    have hna2 : '@' ∉ dp := by
      intro hm
      have := (List.all_eq_true.mp hdpc) '@' hm
      simp [isEmailChar] at this
    refine ⟨?_, lp, dp, rfl, ?_⟩
    · rw [hcs, List.count_append, List.count_cons]
      simp [List.count_eq_zero.mpr hna, List.count_eq_zero.mpr hna2]
    · rcases dp with _ | ⟨d0, rest⟩
      · simp at hdp
      · exact List.mem_cons_of_mem _ (hasDotInside_mem hdot)

/-- Decomposition of the four-way acceptance gate. -/
theorem accept_decomp {topic : String} {r : SearchResponse}
    (h : acceptCandidate topic r = true) :
    r.found = true ∧ isValidEmailFormat r.email = true ∧
    (∃ ev, r.evidence = some ev ∧ jsIncludes ev.quoted_snippet r.email = true) ∧
    isDepartmentRelevant topic r.agency_name r.email = true := by
  unfold acceptCandidate at h
  simp only [Bool.and_eq_true] at h
  obtain ⟨⟨⟨hf, hv⟩, hq⟩, hr⟩ := h
  refine ⟨hf, hv, ?_, hr⟩
  unfold evidenceQuotes at hq
  rcases he : r.evidence with _ | ev
  · rw [he] at hq; cases hq
  · rw [he] at hq; exact ⟨ev, rfl, hq⟩

/-- A candidate failing syntactic validity or the evidence-substring test is
never accepted. -/
theorem acceptCandidate_eq_false_of {topic : String} {r : SearchResponse}
    (h : isValidEmailFormat r.email = false ∨ evidenceQuotes r = false) :
    acceptCandidate topic r = false := by
  unfold acceptCandidate
  rcases h with h | h <;> simp [h]

theorem jsOrHalf_ne_zero : ∀ oc : Option ℚ, jsOrHalf oc ≠ 0
  | none => by norm_num [jsOrHalf]
  | some q => by
    by_cases hq : q = 0
    · norm_num [jsOrHalf, hq]
    · simp [jsOrHalf, hq]

theorem jsOrHalf_default : ∀ {oc : Option ℚ}, oc = none ∨ oc = some 0 →
    jsOrHalf oc = 1 / 2 := by
  intro oc h
  rcases h with h | h <;> subst h <;> simp [jsOrHalf]

theorem searchCalls_append (l1 l2 : List GeminiCall) :
    searchCalls (l1 ++ l2) = searchCalls l1 ++ searchCalls l2 := by
  simp [searchCalls, List.filter_append]

/-- Jurisdiction resolution issues no search-tier or guess calls. -/
theorem resolveJurisdiction_no_search (g : Gateway) (loc : Option LocationObj) :
    searchCalls (resolveJurisdiction g loc).2 = [] := by
  rcases loc with _ | obj
  · rcases hex : g.extractLoc with e | ex
    · simp [resolveJurisdiction, hex, searchCalls, isSearchCall, List.filter]
    · simp only [resolveJurisdiction, hex]
      split <;> simp [searchCalls, isSearchCall, List.filter]
  · simp only [resolveJurisdiction]
    split
    · rcases hgeo : g.geocode with e | geo
      · simp [hgeo, searchCalls, isSearchCall, List.filter]
      · simp only [hgeo]
        split <;> simp [searchCalls, isSearchCall, List.filter]
    · simp [searchCalls]

theorem cascade_accA {g : Gateway} {topic : String} {rA : SearchResponse}
    (hA : g.passA = .ok rA) (ha : acceptCandidate topic rA = true) :
    searchCascade g topic =
      (.ok (rA, .TOPIC_SPECIFIC), [⟨.searchTopicSpecific, true⟩]) := by
  simp [searchCascade, hA, ha]

theorem cascade_accB {g : Gateway} {topic : String} {rA rB : SearchResponse}
    (hA : g.passA = .ok rA) (ha : acceptCandidate topic rA = false)
    (hB : g.passB = .ok rB) (hb : acceptCandidate topic rB = true) :
    searchCascade g topic =
      (.ok (rB, .AGENCY_MAIN),
       [⟨.searchTopicSpecific, true⟩, ⟨.searchAgency, true⟩]) := by
  simp [searchCascade, hA, ha, hB, hb]

theorem cascade_accC {g : Gateway} {topic : String} {rA rB rC : SearchResponse}
    (hA : g.passA = .ok rA) (ha : acceptCandidate topic rA = false)
    (hB : g.passB = .ok rB) (hb : acceptCandidate topic rB = false)
    (hC : g.passC = .ok rC) (hc : acceptCandidate topic rC = true) :
    searchCascade g topic =
      (.ok (rC, .JURISDICTION_GENERAL),
       [⟨.searchTopicSpecific, true⟩, ⟨.searchAgency, true⟩,
        ⟨.searchGeneral, true⟩]) := by
  simp [searchCascade, hA, ha, hB, hb, hC, hc]

theorem cascade_guess {g : Gateway} {topic : String} {rA rB rC : SearchResponse}
    {gu : GuessResponse}
    (hA : g.passA = .ok rA) (ha : acceptCandidate topic rA = false)
    (hB : g.passB = .ok rB) (hb : acceptCandidate topic rB = false)
    (hC : g.passC = .ok rC) (hc : acceptCandidate topic rC = false)
    (hg : g.guessCall = .ok gu) :
    searchCascade g topic =
      (.ok ((⟨false, gu.email, gu.agency_name, none,
              some (1 / 10)⟩ : SearchResponse), .UNVERIFIED_GUESS),
       [⟨.searchTopicSpecific, true⟩, ⟨.searchAgency, true⟩,
        ⟨.searchGeneral, true⟩, ⟨.guess, false⟩]) := by
  simp [searchCascade, hA, ha, hB, hb, hC, hc, hg]

/-- With healthy tier calls the cascade always selects some candidate. -/
theorem cascade_ok {g : Gateway} {topic : String} {rA rB rC : SearchResponse}
    {gu : GuessResponse}
    (hA : g.passA = .ok rA) (hB : g.passB = .ok rB)
    (hC : g.passC = .ok rC) (hg : g.guessCall = .ok gu) :
    ∃ chosen fb evs, searchCascade g topic = (.ok (chosen, fb), evs) := by
  cases ha : acceptCandidate topic rA
  · cases hb : acceptCandidate topic rB
    · cases hc : acceptCandidate topic rC
      · exact ⟨_, _, _, cascade_guess hA ha hB hb hC hc hg⟩
      · exact ⟨_, _, _, cascade_accC hA ha hB hb hC hc⟩
    · exact ⟨_, _, _, cascade_accB hA ha hB hb⟩
  · exact ⟨_, _, _, cascade_accA hA ha⟩

/-- Full characterisation of a successful pipeline run from the outcome of
its stages. -/
theorem generateEmailDraft_eq {g : Gateway} {inp : PipelineInput} {j : String}
    {ev1 : List GeminiCall} {tr : TopicResponse} {chosen : SearchResponse}
    {fb : FallbackLevel} {evs : List GeminiCall} {content : EmailContent}
    (hj : resolveJurisdiction g inp.location = (.ok j, ev1))
    (ht : g.topicCall = .ok tr)
    (hsc : searchCascade g (topicOrDefault tr) = (.ok (chosen, fb), evs))
    (hb : g.bodyCall = .ok content) :
    generateEmailDraft g inp =
      (.ok ((⟨chosen.email, content.subject, content.body, j,
              chosen.agency_name, topicOrDefault tr,
              jsOrHalf chosen.confidence, fb, chosen.evidence,
              pipelineDns g chosen.email⟩ : RoutingResult), chosen),
       ev1 ++ ⟨.extractTopic, false⟩ :: (evs ++ [⟨.draftBody, false⟩])) := by
  simp [generateEmailDraft, hj, ht, hsc, hb]

/-! ## Claim theorems -/

/-- C1: For every sequence of Model Gateway responses, the `RoutingResult`'s
`fallback_level` equals the highest-trust tier in the fixed order
TOPIC_SPECIFIC > AGENCY_MAIN > JURISDICTION_GENERAL > UNVERIFIED_GUESS whose
candidate satisfied all four acceptance criteria (`found`, syntactically
valid email, evidence snippet containing the email, relevance-filter
acceptance — the conjunction `acceptCandidate`), and once a tier's candidate
is accepted no lower tier's search or guess call is issued (the trace's
search calls stop at the accepted tier). -/
theorem C1_highest_tier_short_circuit
    (g : Gateway) (inp : PipelineInput) (j : String) (ev1 : List GeminiCall)
    (tr : TopicResponse) (rA rB rC : SearchResponse) (gu : GuessResponse)
    (content : EmailContent)
    (hj : resolveJurisdiction g inp.location = (.ok j, ev1))
    (ht : g.topicCall = .ok tr) (hA : g.passA = .ok rA) (hB : g.passB = .ok rB)
    (hC : g.passC = .ok rC) (hg : g.guessCall = .ok gu)
    (hb : g.bodyCall = .ok content) :
    ∃ r chosen, (generateEmailDraft g inp).1 = .ok (r, chosen) ∧
      (r.fallback_level = .TOPIC_SPECIFIC ↔
        acceptCandidate (topicOrDefault tr) rA = true) ∧
      (r.fallback_level = .AGENCY_MAIN ↔
        (acceptCandidate (topicOrDefault tr) rA = false ∧
         acceptCandidate (topicOrDefault tr) rB = true)) ∧
      (r.fallback_level = .JURISDICTION_GENERAL ↔
        (acceptCandidate (topicOrDefault tr) rA = false ∧
         acceptCandidate (topicOrDefault tr) rB = false ∧
         acceptCandidate (topicOrDefault tr) rC = true)) ∧
      (r.fallback_level = .UNVERIFIED_GUESS ↔
        (acceptCandidate (topicOrDefault tr) rA = false ∧
         acceptCandidate (topicOrDefault tr) rB = false ∧
         acceptCandidate (topicOrDefault tr) rC = false)) ∧
      searchCalls (generateEmailDraft g inp).2 =
        (if acceptCandidate (topicOrDefault tr) rA then [.searchTopicSpecific]
         else if acceptCandidate (topicOrDefault tr) rB then
           [.searchTopicSpecific, .searchAgency]
         else if acceptCandidate (topicOrDefault tr) rC then
           [.searchTopicSpecific, .searchAgency, .searchGeneral]
         else [.searchTopicSpecific, .searchAgency, .searchGeneral, .guess]) := by
  have hev1 : searchCalls ev1 = [] := by
    have h := resolveJurisdiction_no_search g inp.location
    rw [hj] at h
    exact h
  cases ha : acceptCandidate (topicOrDefault tr) rA
  · cases hbb : acceptCandidate (topicOrDefault tr) rB
    · cases hc : acceptCandidate (topicOrDefault tr) rC
      · rw [generateEmailDraft_eq hj ht (cascade_guess hA ha hB hbb hC hc hg) hb]
        refine ⟨_, _, rfl, ?_, ?_, ?_, ?_, ?_⟩
        · simp [ha]
        · simp [ha]
        · simp [ha]
        · simp [ha, hbb, hc]
        · simp only [searchCalls_append, hev1]
          simp [ha, hbb, hc, searchCalls, isSearchCall, List.filter]
      · rw [generateEmailDraft_eq hj ht (cascade_accC hA ha hB hbb hC hc) hb]
        refine ⟨_, _, rfl, ?_, ?_, ?_, ?_, ?_⟩
        · simp [ha]
        · simp [hbb]
        · simp [ha, hbb, hc]
        · simp [hc]
        · simp only [searchCalls_append, hev1]
          simp [ha, hbb, hc, searchCalls, isSearchCall, List.filter]
    · rw [generateEmailDraft_eq hj ht (cascade_accB hA ha hB hbb) hb]
      refine ⟨_, _, rfl, ?_, ?_, ?_, ?_, ?_⟩
      · simp [ha]
      · simp [ha, hbb]
      · simp [hbb]
      · simp [hbb]
      · simp only [searchCalls_append, hev1]
        simp [ha, hbb, searchCalls, isSearchCall, List.filter]
  · rw [generateEmailDraft_eq hj ht (cascade_accA hA ha) hb]
    refine ⟨_, _, rfl, ?_, ?_, ?_, ?_, ?_⟩
    · simp [ha]
    · simp [ha]
    · simp [ha]
    · simp [ha]
    · simp only [searchCalls_append, hev1]
      simp [ha, searchCalls, isSearchCall, List.filter]

/-- C1 witness: at a concrete gateway whose topic-specific tier is accepted,
the result's fallback level is TOPIC_SPECIFIC and only the tier-A search call
was issued. -/
theorem C1_highest_tier_short_circuit_witness :
    ∃ r chosen, (generateEmailDraft gwAcceptA inpNoLoc).1 = .ok (r, chosen) ∧
      (r.fallback_level = .TOPIC_SPECIFIC ↔
        acceptCandidate (topicOrDefault topicSample) rAccept = true) ∧
      (r.fallback_level = .AGENCY_MAIN ↔
        (acceptCandidate (topicOrDefault topicSample) rAccept = false ∧
         acceptCandidate (topicOrDefault topicSample) rReject = true)) ∧
      (r.fallback_level = .JURISDICTION_GENERAL ↔
        (acceptCandidate (topicOrDefault topicSample) rAccept = false ∧
         acceptCandidate (topicOrDefault topicSample) rReject = false ∧
         acceptCandidate (topicOrDefault topicSample) rReject = true)) ∧
      (r.fallback_level = .UNVERIFIED_GUESS ↔
        (acceptCandidate (topicOrDefault topicSample) rAccept = false ∧
         acceptCandidate (topicOrDefault topicSample) rReject = false ∧
         acceptCandidate (topicOrDefault topicSample) rReject = false)) ∧
      searchCalls (generateEmailDraft gwAcceptA inpNoLoc).2 =
        (if acceptCandidate (topicOrDefault topicSample) rAccept then
           [.searchTopicSpecific]
         else if acceptCandidate (topicOrDefault topicSample) rReject then
           [.searchTopicSpecific, .searchAgency]
         else if acceptCandidate (topicOrDefault topicSample) rReject then
           [.searchTopicSpecific, .searchAgency, .searchGeneral]
         else [.searchTopicSpecific, .searchAgency, .searchGeneral, .guess]) :=
  C1_highest_tier_short_circuit gwAcceptA inpNoLoc "Palo Alto, CA"
    [⟨.extractLocation, false⟩] topicSample rAccept rReject rReject guessSample
    contentSample rfl rfl rfl rfl rfl rfl rfl

/-- C2: A candidate from any of the three search tiers is accepted only if
its email string appears verbatim as a substring of its own evidence's quoted
snippet and the email passes the syntactic validity check (which forces
exactly one `@` and a `'.'` inside the domain part); a candidate failing
either condition is discarded (its tier is never the reported fallback
level), even when it reports `found = true`. -/
theorem C2_evidence_substring_and_validity
    (g : Gateway) (inp : PipelineInput) (j : String) (ev1 : List GeminiCall)
    (tr : TopicResponse) (rA rB rC : SearchResponse) (gu : GuessResponse)
    (content : EmailContent)
    (hj : resolveJurisdiction g inp.location = (.ok j, ev1))
    (ht : g.topicCall = .ok tr) (hA : g.passA = .ok rA) (hB : g.passB = .ok rB)
    (hC : g.passC = .ok rC) (hg : g.guessCall = .ok gu)
    (hb : g.bodyCall = .ok content) :
    ∃ r chosen, (generateEmailDraft g inp).1 = .ok (r, chosen) ∧
      (r.fallback_level ≠ .UNVERIFIED_GUESS →
        r.«to» = chosen.email ∧ chosen.found = true ∧
        isValidEmailFormat r.«to» = true ∧
        (∃ ev, r.evidence = some ev ∧
          jsIncludes ev.quoted_snippet r.«to» = true) ∧
        isDepartmentRelevant (topicOrDefault tr) chosen.agency_name r.«to» = true ∧
        r.«to».data.count '@' = 1 ∧
        (∃ lp dp, splitAtAmp r.«to».data = some (lp, dp) ∧ '.' ∈ dp)) ∧
      ((isValidEmailFormat rA.email = false ∨ evidenceQuotes rA = false) →
        r.fallback_level ≠ .TOPIC_SPECIFIC) ∧
      ((isValidEmailFormat rB.email = false ∨ evidenceQuotes rB = false) →
        r.fallback_level ≠ .AGENCY_MAIN) ∧
      ((isValidEmailFormat rC.email = false ∨ evidenceQuotes rC = false) →
        r.fallback_level ≠ .JURISDICTION_GENERAL) := by
  have main : ∀ (r0 : SearchResponse),
      acceptCandidate (topicOrDefault tr) r0 = true →
      r0.email = r0.email ∧ r0.found = true ∧
      isValidEmailFormat r0.email = true ∧
      (∃ ev, r0.evidence = some ev ∧
        jsIncludes ev.quoted_snippet r0.email = true) ∧
      isDepartmentRelevant (topicOrDefault tr) r0.agency_name r0.email = true ∧
      r0.email.data.count '@' = 1 ∧
      (∃ lp dp, splitAtAmp r0.email.data = some (lp, dp) ∧ '.' ∈ dp) := by
    intro r0 hacc
    obtain ⟨hf, hv, hq, hrel⟩ := accept_decomp hacc
    obtain ⟨hcount, hdot⟩ := valid_email_shape hv
    exact ⟨rfl, hf, hv, hq, hrel, hcount, hdot⟩
  cases ha : acceptCandidate (topicOrDefault tr) rA
  · cases hbb : acceptCandidate (topicOrDefault tr) rB
    · cases hc : acceptCandidate (topicOrDefault tr) rC
      · rw [generateEmailDraft_eq hj ht (cascade_guess hA ha hB hbb hC hc hg) hb]
        refine ⟨_, _, rfl, ?_, ?_, ?_, ?_⟩
        · intro hne; exact absurd rfl hne
        · intro _; simp
        · intro _; simp
        · intro _; simp
      · rw [generateEmailDraft_eq hj ht (cascade_accC hA ha hB hbb hC hc) hb]
        refine ⟨_, _, rfl, ?_, ?_, ?_, ?_⟩
        · intro _; exact main rC hc
        · intro _; simp
        · intro _; simp
        · intro hfail
          rw [acceptCandidate_eq_false_of hfail] at hc
          cases hc
    · rw [generateEmailDraft_eq hj ht (cascade_accB hA ha hB hbb) hb]
      refine ⟨_, _, rfl, ?_, ?_, ?_, ?_⟩
      · intro _; exact main rB hbb
      · intro _; simp
      · intro hfail
        rw [acceptCandidate_eq_false_of hfail] at hbb
        cases hbb
      · intro _; simp
  · rw [generateEmailDraft_eq hj ht (cascade_accA hA ha) hb]
    refine ⟨_, _, rfl, ?_, ?_, ?_, ?_⟩
    · intro _; exact main rA ha
    · intro hfail
      rw [acceptCandidate_eq_false_of hfail] at ha
      cases ha
    · intro _; simp
    · intro _; simp

/-- C2 witness: at a concrete gateway whose accepted candidate quotes its
email in its evidence snippet, the acceptance guarantees hold. -/
theorem C2_evidence_substring_and_validity_witness :
    ∃ r chosen, (generateEmailDraft gwAcceptA inpNoLoc).1 = .ok (r, chosen) ∧
      (r.fallback_level ≠ .UNVERIFIED_GUESS →
        r.«to» = chosen.email ∧ chosen.found = true ∧
        isValidEmailFormat r.«to» = true ∧
        (∃ ev, r.evidence = some ev ∧
          jsIncludes ev.quoted_snippet r.«to» = true) ∧
        isDepartmentRelevant (topicOrDefault topicSample) chosen.agency_name
          r.«to» = true ∧
        r.«to».data.count '@' = 1 ∧
        (∃ lp dp, splitAtAmp r.«to».data = some (lp, dp) ∧ '.' ∈ dp)) ∧
      ((isValidEmailFormat rAccept.email = false ∨
          evidenceQuotes rAccept = false) →
        r.fallback_level ≠ .TOPIC_SPECIFIC) ∧
      ((isValidEmailFormat rReject.email = false ∨
          evidenceQuotes rReject = false) →
        r.fallback_level ≠ .AGENCY_MAIN) ∧
      ((isValidEmailFormat rReject.email = false ∨
          evidenceQuotes rReject = false) →
        r.fallback_level ≠ .JURISDICTION_GENERAL) :=
  C2_evidence_substring_and_validity gwAcceptA inpNoLoc "Palo Alto, CA"
    [⟨.extractLocation, false⟩] topicSample rAccept rReject rReject guessSample
    contentSample rfl rfl rfl rfl rfl rfl rfl

/-- C3: When all three search tiers' candidates are rejected, the pipeline
still returns a result: its fallback level is UNVERIFIED_GUESS, its
confidence is the fixed 0.1, the internal candidate's `found` flag is false
and the result's evidence is null, and the guess's email and agency are used
as-is — the conclusion holds for an arbitrary guess response, with no
relevance-filter or evidence-substring side condition on it. -/
theorem C3_all_tiers_rejected_guess
    (g : Gateway) (inp : PipelineInput) (j : String) (ev1 : List GeminiCall)
    (tr : TopicResponse) (rA rB rC : SearchResponse) (gu : GuessResponse)
    (content : EmailContent)
    (hj : resolveJurisdiction g inp.location = (.ok j, ev1))
    (ht : g.topicCall = .ok tr) (hA : g.passA = .ok rA) (hB : g.passB = .ok rB)
    (hC : g.passC = .ok rC) (hg : g.guessCall = .ok gu)
    (hb : g.bodyCall = .ok content)
    (ra : acceptCandidate (topicOrDefault tr) rA = false)
    (rb : acceptCandidate (topicOrDefault tr) rB = false)
    (rc : acceptCandidate (topicOrDefault tr) rC = false) :
    ∃ r chosen, (generateEmailDraft g inp).1 = .ok (r, chosen) ∧
      r.fallback_level = .UNVERIFIED_GUESS ∧
      r.confidence = 1 / 10 ∧
      chosen.found = false ∧
      r.evidence = none ∧
      r.«to» = gu.email ∧ r.agency_name = gu.agency_name ∧
      searchCalls (generateEmailDraft g inp).2 =
        [.searchTopicSpecific, .searchAgency, .searchGeneral, .guess] := by
  have hev1 : searchCalls ev1 = [] := by
    have h := resolveJurisdiction_no_search g inp.location
    rw [hj] at h
    exact h
  rw [generateEmailDraft_eq hj ht (cascade_guess hA ra hB rb hC rc hg) hb]
  refine ⟨_, _, rfl, rfl, ?_, rfl, rfl, rfl, rfl, ?_⟩
  · show jsOrHalf (some (1 / 10)) = 1 / 10
    norm_num [jsOrHalf]
  · simp only [searchCalls_append, hev1]
    simp [searchCalls, isSearchCall, List.filter]

/-- C3 witness: at a concrete gateway whose every tier reports
`found: false`, the guess tier is reported with confidence 0.1. -/
theorem C3_all_tiers_rejected_guess_witness :
    ∃ r chosen, (generateEmailDraft gwAllReject inpNoLoc).1 = .ok (r, chosen) ∧
      r.fallback_level = .UNVERIFIED_GUESS ∧
      r.confidence = 1 / 10 ∧
      chosen.found = false ∧
      r.evidence = none ∧
      r.«to» = guessSample.email ∧ r.agency_name = guessSample.agency_name ∧
      searchCalls (generateEmailDraft gwAllReject inpNoLoc).2 =
        [.searchTopicSpecific, .searchAgency, .searchGeneral, .guess] :=
  C3_all_tiers_rejected_guess gwAllReject inpNoLoc "Palo Alto, CA"
    [⟨.extractLocation, false⟩] topicSample rReject rReject rReject guessSample
    contentSample rfl rfl rfl rfl rfl rfl rfl (by decide) (by decide) (by decide)

/-- C5: When the `location` argument is present but malformed (latitude or
longitude not a number), no error is raised by the location step: the
pipeline substitutes the fixed default jurisdiction "Palo Alto, CA" without
issuing any geocoding or location-extraction call, and proceeds normally
through topic extraction, the search cascade and draft composition. -/
theorem C5_malformed_location_defaults
    (g : Gateway) (inp : PipelineInput) (obj : LocationObj)
    (tr : TopicResponse) (rA rB rC : SearchResponse) (gu : GuessResponse)
    (content : EmailContent)
    (hloc : inp.location = some obj)
    (hmal : (obj.latitude.isNumber && obj.longitude.isNumber) = false)
    (ht : g.topicCall = .ok tr) (hA : g.passA = .ok rA) (hB : g.passB = .ok rB)
    (hC : g.passC = .ok rC) (hg : g.guessCall = .ok gu)
    (hb : g.bodyCall = .ok content) :
    ∃ r chosen, (generateEmailDraft g inp).1 = .ok (r, chosen) ∧
      r.jurisdiction = "Palo Alto, CA" ∧
      (generateEmailDraft g inp).2 =
        ⟨.extractTopic, false⟩ ::
          ((searchCascade g (topicOrDefault tr)).2 ++ [⟨.draftBody, false⟩]) := by
  have hj : resolveJurisdiction g inp.location = (.ok defaultJurisdiction, []) := by
    rw [hloc]
    simp [resolveJurisdiction, hmal]
  obtain ⟨chosen, fb, evs, hsc⟩ := @cascade_ok g (topicOrDefault tr) rA rB rC gu hA hB hC hg
  rw [generateEmailDraft_eq hj ht hsc hb, hsc]
  exact ⟨_, _, rfl, rfl, rfl⟩

/-- C5 witness: the concrete malformed location `{latitude: "abc"}` yields
the default jurisdiction and an untouched remainder of the pipeline. -/
theorem C5_malformed_location_defaults_witness :
    ∃ r chosen, (generateEmailDraft gwAcceptA inpBadLoc).1 = .ok (r, chosen) ∧
      r.jurisdiction = "Palo Alto, CA" ∧
      (generateEmailDraft gwAcceptA inpBadLoc).2 =
        ⟨.extractTopic, false⟩ ::
          ((searchCascade gwAcceptA (topicOrDefault topicSample)).2 ++
            [⟨.draftBody, false⟩]) :=
  C5_malformed_location_defaults gwAcceptA inpBadLoc ⟨.str "abc", .missing⟩
    topicSample rAccept rReject rReject guessSample contentSample rfl
    (by decide) rfl rfl rfl rfl rfl rfl

/-- C6 (amended): when the topic-extraction call returns an empty (or
missing) topic, the pipeline continues with the default topic
"general issue"; but a topic-extraction call that fails (throws) is NOT
absorbed — it propagates as an error to the caller. -/
theorem C6_topic_empty_defaults_error_propagates
    (g : Gateway) (inp : PipelineInput) (j : String) (ev1 : List GeminiCall)
    (rA rB rC : SearchResponse) (gu : GuessResponse) (content : EmailContent)
    (hj : resolveJurisdiction g inp.location = (.ok j, ev1))
    (hA : g.passA = .ok rA) (hB : g.passB = .ok rB)
    (hC : g.passC = .ok rC) (hg : g.guessCall = .ok gu)
    (hb : g.bodyCall = .ok content) :
    (g.topicCall = .ok ⟨""⟩ →
      ∃ r chosen, (generateEmailDraft g inp).1 = .ok (r, chosen) ∧
        r.topic = "general issue") ∧
    (∀ e, g.topicCall = .error e → (generateEmailDraft g inp).1 = .error e) := by
  constructor
  · intro ht
    obtain ⟨chosen, fb, evs, hsc⟩ :=
      @cascade_ok g (topicOrDefault ⟨""⟩) rA rB rC gu hA hB hC hg
    rw [generateEmailDraft_eq hj ht hsc hb]
    exact ⟨_, _, rfl, rfl⟩
  · intro e ht
    simp [generateEmailDraft, hj, ht]

/-- C6 witness: an empty-topic gateway yields "general issue"; a gateway
whose topic call throws makes the whole pipeline fail with that error. -/
theorem C6_topic_empty_defaults_error_propagates_witness :
    (∃ r chosen, (generateEmailDraft gwEmptyTopic inpNoLoc).1 = .ok (r, chosen) ∧
      r.topic = "general issue") ∧
    (generateEmailDraft gwTopicFails inpNoLoc).1 =
      .error "Empty response from Gemini" :=
  ⟨(C6_topic_empty_defaults_error_propagates gwEmptyTopic inpNoLoc
      "Palo Alto, CA" [⟨.extractLocation, false⟩] rReject rReject rReject
      guessSample contentSample rfl rfl rfl rfl rfl rfl).1 rfl,
   (C6_topic_empty_defaults_error_propagates gwTopicFails inpNoLoc
      "Palo Alto, CA" [⟨.extractLocation, false⟩] rAccept rReject rReject
      guessSample contentSample rfl rfl rfl rfl rfl rfl).2
     "Empty response from Gemini" rfl⟩

/-- C6 counterexample to the claim as stated: a gateway whose
topic-extraction call fails (throws) while every other call is healthy does
NOT continue with the default topic — `generateEmailDraft` surfaces the
error to the caller. -/
theorem C6_counterexample_topic_failure_surfaces :
    (generateEmailDraft gwTopicFails inpNoLoc).1 =
      .error "Empty response from Gemini" := by
  rfl

/-- C10: the final `confidence` substitution `emailResult.confidence || 0.5`:
when the chosen candidate's confidence is missing/null or exactly 0, the
reported confidence is 0.5; consequently the reported confidence is never 0,
and in the substituted case it exceeds the guess tier's fixed 0.1. -/
theorem C10_confidence_substitution
    (g : Gateway) (inp : PipelineInput) (j : String) (ev1 : List GeminiCall)
    (tr : TopicResponse) (rA rB rC : SearchResponse) (gu : GuessResponse)
    (content : EmailContent)
    (hj : resolveJurisdiction g inp.location = (.ok j, ev1))
    (ht : g.topicCall = .ok tr) (hA : g.passA = .ok rA) (hB : g.passB = .ok rB)
    (hC : g.passC = .ok rC) (hg : g.guessCall = .ok gu)
    (hb : g.bodyCall = .ok content) :
    ∃ r chosen, (generateEmailDraft g inp).1 = .ok (r, chosen) ∧
      r.confidence ≠ 0 ∧
      ((chosen.confidence = none ∨ chosen.confidence = some 0) →
        r.confidence = 1 / 2 ∧ 1 / 10 < r.confidence) := by
  obtain ⟨chosen, fb, evs, hsc⟩ := @cascade_ok g (topicOrDefault tr) rA rB rC gu hA hB hC hg
  rw [generateEmailDraft_eq hj ht hsc hb]
  refine ⟨_, _, rfl, jsOrHalf_ne_zero chosen.confidence, ?_⟩
  intro hdef
  have hhalf : jsOrHalf chosen.confidence = 1 / 2 := jsOrHalf_default hdef
  constructor
  · show jsOrHalf chosen.confidence = 1 / 2
    exact hhalf
  · show (1 : ℚ) / 10 < jsOrHalf chosen.confidence
    rw [hhalf]
    norm_num

/-- C10 witness: an accepted tier-A candidate asserting confidence 0 is
reported with confidence 0.5. -/
theorem C10_confidence_substitution_witness :
    ∃ r chosen, (generateEmailDraft gwZeroConf inpNoLoc).1 = .ok (r, chosen) ∧
      r.confidence ≠ 0 ∧
      ((chosen.confidence = none ∨ chosen.confidence = some 0) →
        r.confidence = 1 / 2 ∧ 1 / 10 < r.confidence) :=
  C10_confidence_substitution gwZeroConf inpNoLoc "Palo Alto, CA"
    [⟨.extractLocation, false⟩] topicSample rAcceptZeroConf rReject rReject
    guessSample contentSample rfl rfl rfl rfl rfl rfl rfl

/-- C4 (amended): rate-limiting (HTTP 429) — like the other retryable
statuses 503/504 and network fetch failures — is retried with exponential
backoff: under a server that always returns 429, exactly `MAX_RETRIES = 5`
retries are performed (six fetches), the backoff base delays double
geometrically from `BASE_DELAY_MS` (1000, 2000, 4000, 8000, 16000 ms), and a
terminal transport error is then raised; each sleep's actual duration is its
base delay plus a random jitter of at most 30% of it.  (Truncated responses
are also retried up to the same cap, but immediately, without a backoff
delay — see the counterexample.) -/
theorem C4_rate_limit_exhausts_retries (frac : ℚ) (ms : Nat)
    (h0 : 0 ≤ frac) (h1 : frac < 1) :
    callGemini server429 =
      (.error "API error 429 after 5 retries",
       [.fetchEv, .sleepEv 1000, .fetchEv, .sleepEv 2000, .fetchEv,
        .sleepEv 4000, .fetchEv, .sleepEv 8000, .fetchEv, .sleepEv 16000,
        .fetchEv], 6) ∧
    ((callGemini server429).2.1.filter
        (fun e => match e with | .fetchEv => true | _ => false)).length =
      MAX_RETRIES + 1 ∧
    ((callGemini server429).2.1.filter
        (fun e => match e with | .sleepEv _ => true | _ => false)) =
      [.sleepEv (BASE_DELAY_MS * 2 ^ 0), .sleepEv (BASE_DELAY_MS * 2 ^ 1),
       .sleepEv (BASE_DELAY_MS * 2 ^ 2), .sleepEv (BASE_DELAY_MS * 2 ^ 3),
       .sleepEv (BASE_DELAY_MS * 2 ^ 4)] ∧
    (ms : ℚ) ≤ sleepActual frac ms ∧
    sleepActual frac ms ≤ (ms : ℚ) + (3 / 10) * (ms : ℚ) := by
  have hm : (0 : ℚ) ≤ (ms : ℚ) := Nat.cast_nonneg ms
  refine ⟨rfl, rfl, rfl, ?_, ?_⟩
  · simp only [sleepActual]
    nlinarith
  · simp only [sleepActual]
    nlinarith

/-- C4 witness: the retry-exhaustion trace, with the jitter bounds
instantiated at the draw 1/2 and the base delay 1000 ms. -/
theorem C4_rate_limit_exhausts_retries_witness :
    callGemini server429 =
      (.error "API error 429 after 5 retries",
       [.fetchEv, .sleepEv 1000, .fetchEv, .sleepEv 2000, .fetchEv,
        .sleepEv 4000, .fetchEv, .sleepEv 8000, .fetchEv, .sleepEv 16000,
        .fetchEv], 6) ∧
    ((callGemini server429).2.1.filter
        (fun e => match e with | .fetchEv => true | _ => false)).length =
      MAX_RETRIES + 1 ∧
    ((callGemini server429).2.1.filter
        (fun e => match e with | .sleepEv _ => true | _ => false)) =
      [.sleepEv (BASE_DELAY_MS * 2 ^ 0), .sleepEv (BASE_DELAY_MS * 2 ^ 1),
       .sleepEv (BASE_DELAY_MS * 2 ^ 2), .sleepEv (BASE_DELAY_MS * 2 ^ 3),
       .sleepEv (BASE_DELAY_MS * 2 ^ 4)] ∧
    ((1000 : Nat) : ℚ) ≤ sleepActual (1 / 2) 1000 ∧
    sleepActual (1 / 2) 1000 ≤ ((1000 : Nat) : ℚ) + (3 / 10) * ((1000 : Nat) : ℚ) :=
  C4_rate_limit_exhausts_retries (1 / 2) 1000 (by norm_num) (by norm_num)

/-- C4 counterexample to the claim as stated: a truncated (MAX_TOKENS)
response IS retried, but with no exponential-backoff sleep at all — the
trace of a first-truncated-then-complete server shows two fetches and an
empty list of sleep events. -/
theorem C4_counterexample_truncation_no_backoff :
    callGemini serverTruncated = (.ok 7, [.fetchEv, .fetchEv], 2) ∧
    ((callGemini serverTruncated).2.1.filter
        (fun e => match e with | .sleepEv _ => true | _ => false)) = [] := by
  exact ⟨rfl, rfl⟩

/-- C7 (amended): the Domain Verifier issues exactly one DNS query for any
domain — the MX lookup — and never a secondary A-record query; a completed
MX response yields the single Boolean "status NOERROR and at least one
answer", and a network failure/timeout (the fetch carries a 5000 ms abort
signal) yields null ("unknown") rather than a rejection. -/
theorem C7_mx_only_null_on_failure (dns : DnsQuery → Except Unit DnsResponse)
    (domain : String) :
    (checkDomainMX dns domain).2 = [⟨domain, .MX⟩] ∧
    ((checkDomainMX dns domain).2.filter (fun q => q.qtype == .A)) = [] ∧
    (∀ e : Unit, dns ⟨domain, .MX⟩ = .error e →
      (checkDomainMX dns domain).1 = none) ∧
    (∀ d : DnsResponse, dns ⟨domain, .MX⟩ = .ok d →
      (checkDomainMX dns domain).1 =
        some ((d.Status == 0) && decide (0 < d.answerLen))) ∧
    MX_TIMEOUT_MS = 5000 := by
  rcases hq : dns ⟨domain, .MX⟩ with e | d
  · refine ⟨?_, ?_, ?_, ?_, rfl⟩ <;> simp [checkDomainMX, hq]
  · refine ⟨?_, ?_, ?_, ?_, rfl⟩ <;> simp [checkDomainMX, hq]

/-- C7 witness: a resolver answering the MX lookup with NOERROR and zero
answers yields the completed (non-null) result `false` from the single MX
query. -/
theorem C7_mx_only_null_on_failure_witness :
    (checkDomainMX dnsNoMx "example.gov").1 = some false ∧
    (checkDomainMX dnsNoMx "example.gov").2 = [⟨"example.gov", .MX⟩] := by
  have h := C7_mx_only_null_on_failure dnsNoMx "example.gov"
  refine ⟨?_, h.1⟩
  have h4 := h.2.2.2.1 ⟨0, 0⟩ rfl
  rw [h4]
  rfl

/-- C7 counterexample to the claim as stated: for a domain whose MX lookup
completes with no MX records while an A record exists, the verifier issues
no secondary A-record query (its query list is just the MX lookup) and
returns the single Boolean `false`, not a null/"unknown" pair. -/
theorem C7_counterexample_no_a_record_query :
    checkDomainMX dnsNoMx "example.gov" = (some false, [⟨"example.gov", .MX⟩]) ∧
    ((checkDomainMX dnsNoMx "example.gov").2.filter (fun q => q.qtype == .A)) = [] ∧
    dnsNoMx ⟨"example.gov", .A⟩ = .ok ⟨0, 3⟩ :=
  ⟨rfl, rfl, rfl⟩

/-- C8: the Relevance Filter is a pure function with
`isRelevant("pothole", "Graffiti Abatement Program", "graffiti@city.gov") =
false`, `isRelevant("graffiti", "Graffiti Abatement Program",
"graffiti@city.gov") = true`, and, for every topic, a candidate with neither
agency name nor email present is automatically irrelevant. -/
theorem C8_relevance_filter_examples :
    isDepartmentRelevant "pothole" "Graffiti Abatement Program"
      "graffiti@city.gov" = false ∧
    isDepartmentRelevant "graffiti" "Graffiti Abatement Program"
      "graffiti@city.gov" = true ∧
    ∀ topic : String, isDepartmentRelevant topic "" "" = false := by
  refine ⟨by decide, by decide, fun topic => rfl⟩

/-- C9: for every revision input — regardless of the suggestion's content —
`reviseEmailDraft` issues exactly one Model Gateway call, and that call has
search grounding enabled. -/
theorem C9_revise_always_grounded
    (gw : String → Bool → Except String ReviseResponse) (i : ReviseInput) :
    (reviseEmailDraft gw i).2 = [⟨revisePrompt i, true⟩] ∧
    ((reviseEmailDraft gw i).2.all fun c => c.useSearch) = true ∧
    (reviseEmailDraft gw i).2.length = 1 ∧
    (reviseEmailDraft gw i).1 = gw (revisePrompt i) true :=
  ⟨rfl, rfl, rfl, rfl⟩

end SmartRouting
